import Mathlib

set_option maxRecDepth 4096

/-!
Shallow embedding of the call-lifecycle orchestration in `main_fixed.py`
(repository `skyV2`): the Twilio voice webhook (`voice_webhook`), the
recording-completion webhook (`handle_recording_completion`) and the
notification dispatcher (`send_call_to_voxintel`), together with the
per-call session record they read and write.

Modelling conventions:
* The JSON session record stored in `call_recordings/{CallSid}_transcript.json`
  becomes the structure `CallSession`; the file store keyed by `CallSid`
  becomes an association list `Store`.
* `datetime.datetime.now().isoformat()` values are opaque strings supplied
  to each handler invocation as a `now` parameter.
* The external dialogue engine `sarah_ai.get_response` is an unconstrained
  input: each voice event carries the engine outcome for that event, either
  a returned record (`EngineRespRaw`, with the optional keys the handler
  reads via `.get` defaults) or a raised exception (`Except.error`), which
  is the failure source caught by the handler-wide `try/except`.
* OpenAI audio synthesis is likewise an input: `audioRef` is the generated
  file name, `none` when the client is absent or synthesis failed.
* The TwiML documents built by string formatting are modelled structurally
  as lists of verbs (`Markup`); the fixed Gather attributes
  (`input="speech"`, `action="/webhook/voice"`, `speechTimeout="auto"`,
  `language="en-US"`) are identical across all gathers and only the varying
  `timeout` attribute is recorded.
* The floating-point confidence score stored on system turns (default 0.9)
  drives no control flow and is omitted from the transcript embedding.
-/

/-- A `lead_info` dictionary: insertion-ordered keys, values either a JSON
string (`some s`, possibly empty) or JSON null (`none`).  Mirrors the
Python dict stored at `call_data["lead_info"]`. -/
abbrev LeadInfo := List (String × Option String)

/-- Python `k in d`/`d.get(k)`: first (unique, in a real dict) binding of a
key; `some v` when the key is present with stored value `v`, `none` when the
key is absent. -/
def lookupField : LeadInfo → String → Option (Option String)
  | [], _ => none
  | (k', v) :: rest, k => if k' = k then some v else lookupField rest k

/-- Python `d[k] = v`: replace in place when the key exists (preserving
insertion order), otherwise append at the end. -/
def setField : LeadInfo → String → Option String → LeadInfo
  | [], k, v => [(k, v)]
  | (k', v') :: rest, k, v =>
      if k' = k then (k, v) :: rest else (k', v') :: setField rest k v

/-- Python `d.update(delta)` as at `call_data["lead_info"].update(...)`
(main_fixed.py line 317): every key of the delta is written into the
dictionary, whatever value it carries. -/
def updateLead (li delta : LeadInfo) : LeadInfo :=
  delta.foldl (fun acc p => setField acc p.1 p.2) li

/-- Python `str(d.get(k, dflt))` as used inside the override f-string:
the stored value when the key is present (`str(None) = "None"` when the
stored value is null), the default only when the key is absent. -/
def pyGetStr (li : LeadInfo) (k dflt : String) : String :=
  match lookupField li k with
  | none => dflt
  | some none => "None"
  | some (some v) => v

/-- Python truthiness of an optional string form field:
`None` and the empty string are falsy. -/
def pyTruthy : Option String → Bool
  | none => false
  | some s => s ≠ ""

-- ## Transcript and session record

/-- One entry of `call_data["conversation"]`.  The Python dict's `"type"`
key is captured by the constructor; system (`ai_response`) turns also carry
the extracted lead-info delta, the orchestrator's `next_action` and the
`should_end_call` flag exactly as appended at main_fixed.py lines 287-292,
299-304 and 337-346. -/
inductive Turn
  | greeting (timestamp : String) (message : String)
  | customerInput (timestamp : String) (message : String)
  | aiResponse (timestamp : String) (message : String) (leadDelta : LeadInfo)
      (next_action : String) (should_end_call : Bool)
deriving DecidableEq

/-- The `"timestamp"` field every turn carries. -/
def Turn.timestamp : Turn → String
  | .greeting t _ => t
  | .customerInput t _ => t
  | .aiResponse t _ _ _ _ => t

/-- The `"speaker"` field of a turn (`"Sarah"` or `"Customer"`). -/
def Turn.speaker : Turn → String
  | .greeting _ _ => "Sarah"
  | .customerInput _ _ => "Customer"
  | .aiResponse _ _ _ _ _ => "Sarah"

/-- The `"message"` field of a turn. -/
def Turn.message : Turn → String
  | .greeting _ m => m
  | .customerInput _ m => m
  | .aiResponse _ m _ _ _ => m

/-- The per-call JSON record `call_recordings/{CallSid}_transcript.json`.
Keys written only by later events are `Option`-valued, `none` standing for
an absent key (main_fixed.py lines 265-276 create the record without
`end_time`, `final_lead_info`, `last_updated`, `recording_sid`,
`duration_seconds`, `conversation_exchanges`). -/
structure CallSession where
  call_sid : String
  from_number : String
  to_number : String
  start_time : String
  conversation : List Turn
  lead_info : LeadInfo
  recording_url : Option String
  status : String
  call_completed : Bool
  sent_to_voxintel : Bool
  end_time : Option String
  final_lead_info : Option LeadInfo
  last_updated : Option String
  recording_sid : Option String
  duration_seconds : Option String
  conversation_exchanges : Option Nat
deriving DecidableEq

/-- The fresh record created at main_fixed.py lines 265-276 for an unseen
`CallSid`. -/
def newSession (callSid fromNumber toNumber now : String) : CallSession :=
  { call_sid := callSid
    from_number := fromNumber
    to_number := toNumber
    start_time := now
    conversation := []
    lead_info := []
    recording_url := none
    status := "in_progress"
    call_completed := false
    sent_to_voxintel := false
    end_time := none
    final_lead_info := none
    last_updated := none
    recording_sid := none
    duration_seconds := none
    conversation_exchanges := none }

-- ## Session store (the `call_recordings` directory, keyed by CallSid)

/-- The file-per-call store: association list keyed by `CallSid`. -/
abbrev Store := List (String × CallSession)

/-- `transcript_file.exists()` + `json.load`: the stored record, if any. -/
def storeGet : Store → String → Option CallSession
  | [], _ => none
  | (k, v) :: rest, sid => if k = sid then some v else storeGet rest sid

/-- `json.dump` to `transcript_file`: write (create or replace) one record. -/
def storeSet : Store → String → CallSession → Store
  | [], sid, s => [(sid, s)]
  | (k, v) :: rest, sid, s =>
      if k = sid then (sid, s) :: rest else (k, v) :: storeSet rest sid s

-- ## TwiML markup

/-- One TwiML verb of the documents built at main_fixed.py lines 410-444
and 451-455.  All gathers share the fixed attributes
`input="speech" action="/webhook/voice" speechTimeout="auto" language="en-US"`;
only the varying `timeout` is recorded. -/
inductive Verb
  | play (url : String)
  | say (text : String)
  | gather (timeout : Nat)
  | hangup
deriving DecidableEq

/-- A TwiML `<Response>` body: its verbs in document order. -/
abbrev Markup := List Verb

/-- Number of `<Gather>` elements in a markup document. -/
def countGathers (m : Markup) : Nat :=
  (m.filter fun v => match v with | .gather _ => true | _ => false).length

/-- `https://{railway_domain}/audio/{audio_filename}` (lines 412/426). -/
def audioUrl (domain filename : String) : String :=
  "https://" ++ domain ++ "/audio/" ++ filename

/-- The fixed greeting of the first-contact branch (line 285). -/
def greetingMessage : String :=
  "Hi! This is Sarah from TriCreativeGroup. What promotional items can I help you with today?"

/-- The re-prompt of the continuing+audio document (line 429). -/
def repromptMessage : String :=
  "I didn\x27t catch that. Could you repeat?"

/-- The forced goodbye of the continuing documents (lines 432/442). -/
def goodbyeMessage : String :=
  "Thanks for calling TriCreativeGroup. Have a great day!"

/-- The last-resort message of the handler-wide `except` (line 453). -/
def emergencyMessage : String :=
  "Hello! Thanks for calling TriCreativeGroup. Please hold while we connect you."

/-- The completed-call documents (lines 410-420): play-or-say, then hang up. -/
def renderCompleted (audioRef : Option String) (domain message : String) : Markup :=
  match audioRef with
  | some fn => [.play (audioUrl domain fn), .hangup]
  | none => [.say message, .hangup]

/-- The continuing-call documents (lines 424-444).  With audio: play, a
gather, the re-prompt, a second gather, the goodbye, hang up.  Without
audio (the Polly fallback): say, a single gather, the goodbye, hang up. -/
def renderContinuing (audioRef : Option String) (domain message : String) : Markup :=
  match audioRef with
  | some fn =>
      [.play (audioUrl domain fn), .gather 5, .say repromptMessage,
       .gather 6, .say goodbyeMessage, .hangup]
  | none =>
      [.say message, .gather 5, .say goodbyeMessage, .hangup]

/-- The emergency document returned by the handler-wide `except`
(lines 451-455). -/
def emergencyTwiml : Markup := [.say emergencyMessage, .hangup]

-- ## Dialogue-engine interface and the voice-webhook step

/-- The dict returned by `sarah_ai.get_response`.  `message` is read with
`sarah_response["message"]` (a missing key raises, folded into the
`Except.error` engine outcome); the other keys are read with `.get` and a
default, so they are `Option`-valued here. -/
structure EngineRespRaw where
  message : String
  lead_info : Option LeadInfo
  should_end_call : Option Bool
  next_action : Option String
deriving DecidableEq

/-- `has_contact` of main_fixed.py line 325: both `phone` and `name` keys
present in the merged lead info. -/
def hasContact (li : LeadInfo) : Bool :=
  (lookupField li "phone").isSome && (lookupField li "name").isSome

/-- `has_project` of main_fixed.py line 326: `business_type` or
`product_category` key present. -/
def hasProject (li : LeadInfo) : Bool :=
  (lookupField li "business_type").isSome || (lookupField li "product_category").isSome

/-- The fixed closing synthesized by the override (line 332). -/
def closingMessage (name businessType : String) : String :=
  "Perfect! I have your information, " ++ name ++
  ". Our promotional products specialist will contact you within 24 hours with customized options for your " ++
  businessType ++ ". Thank you for choosing TriCreativeGroup!"

/-- Lines 319-335: the engine's `(message, should_end_call, next_action)`
after applying the `.get` defaults and the termination override, as a
function of the engine response and the merged lead info. -/
def overrideDecision (resp : EngineRespRaw) (lead1 : LeadInfo) : String × Bool × String :=
  let sec0 := resp.should_end_call.getD false
  let na0 := resp.next_action.getD "continue"
  if hasContact lead1 && hasProject lead1 && !sec0 then
    (closingMessage (pyGetStr lead1 "name" "there") (pyGetStr lead1 "business_type" "organization"),
     true, "end_call")
  else
    (resp.message, sec0, na0)

/-- Whether the step's lines 353-363 completion branch fires: the final
`should_end_call` flag, or `next_action == "end_call"`. -/
def stepEndsCall (resp : EngineRespRaw) (lead1 : LeadInfo) : Bool :=
  (overrideDecision resp lead1).2.1 || ((overrideDecision resp lead1).2.2 == "end_call")

/-- Result of the speech branch of the voice webhook. -/
structure SpeechOut where
  session : CallSession
  message : String
  /-- Whether this step launched a VoxIntel dispatch (`asyncio.create_task`
  at line 363). -/
  notify : Bool
deriving DecidableEq

/-- Lines 296-363 of `voice_webhook`: the speech branch, given the engine
returned `resp` (the raising case is handled by the caller).  Appends the
customer turn, merges the delta, applies the override, appends the system
turn, and on an end decision marks completion, stamps `end_time`
(unconditionally), snapshots the lead info and gates the dispatch on
`sent_to_voxintel`. -/
def speechStep (now speechText : String) (resp : EngineRespRaw) (s : CallSession) : SpeechOut :=
  let s1 := { s with conversation := s.conversation ++ [Turn.customerInput now speechText] }
  let delta := resp.lead_info.getD []
  let lead1 := updateLead s1.lead_info delta
  let dec := overrideDecision resp lead1
  let msg := dec.1
  let sec := dec.2.1
  let na := dec.2.2
  let s2 := { s1 with
    lead_info := lead1
    conversation := s1.conversation ++ [Turn.aiResponse now msg delta na sec] }
  if sec || na == "end_call" then
    let s3 := { s2 with
      call_completed := true
      end_time := some now
      status := "completed"
      final_lead_info := some lead1 }
    if s3.sent_to_voxintel then ⟨s3, msg, false⟩
    else ⟨{ s3 with sent_to_voxintel := true }, msg, true⟩
  else ⟨s2, msg, false⟩

/-- Lines 283-294: the first-contact branch appends the fixed greeting. -/
def greetStep (now : String) (s : CallSession) : CallSession × String :=
  ({ s with conversation := s.conversation ++ [Turn.greeting now greetingMessage] }, greetingMessage)

/-- Lines 366-367: `final_lead_info` and `last_updated` written before every
save. -/
def finalizeSession (now : String) (s : CallSession) : CallSession :=
  { s with final_lead_info := some s.lead_info, last_updated := some now }

/-- The form fields of one inbound voice event (line 249-254); each is
`none` when the field is absent from the form. -/
structure VoiceEvent where
  callSid : Option String
  fromNum : Option String
  toNum : Option String
  speech : Option String
  recordingUrl : Option String

/-- Everything the voice webhook produces besides the saved record. -/
structure VoiceOut where
  session : CallSession
  message : String
  twiml : Markup
  notify : Bool
  engineCalled : Bool
deriving DecidableEq

/-- Lines 278-446 of `voice_webhook` applied to the loaded-or-created
record: recording-URL capture, greeting vs. speech branch, finalize, and
the TwiML choice driven by `call_data.get("call_completed", False)`.
An `Except.error` outcome of the engine propagates (nothing is saved);
the caller turns it into the emergency document. -/
def voiceBody (now : String) (ev : VoiceEvent) (engineResult : Except String EngineRespRaw)
    (audioRef : Option String) (domain : String) (s0 : CallSession) :
    Except String VoiceOut :=
  let s := if pyTruthy ev.recordingUrl then { s0 with recording_url := ev.recordingUrl } else s0
  if pyTruthy ev.speech then
    match engineResult with
    | .error e => .error e
    | .ok resp =>
        let r := speechStep now (ev.speech.getD "") resp s
        let s' := finalizeSession now r.session
        .ok ⟨s', r.message,
          (if s'.call_completed then renderCompleted audioRef domain r.message
           else renderContinuing audioRef domain r.message),
          r.notify, true⟩
  else
    let r := greetStep now s
    let s' := finalizeSession now r.1
    .ok ⟨s', r.2,
      (if s'.call_completed then renderCompleted audioRef domain r.2
       else renderContinuing audioRef domain r.2),
      false, false⟩

/-- A webhook's HTTP answer: a TwiML document or a JSON acknowledgement. -/
inductive WebhookResponse
  | markup (m : Markup)
  | ack (status message : String)
deriving DecidableEq

/-- Observable effects of handling one webhook event. -/
structure Effects where
  response : WebhookResponse
  /-- `some sid` when this invocation launched a VoxIntel dispatch for the
  session `sid` (and the flag was set first, see the theorems). -/
  notify : Option String
  /-- Whether the external dialogue engine was invoked. -/
  engineCalled : Bool
deriving DecidableEq

/-- The full `/webhook/voice` handler (lines 243-457): form defaults,
load-or-create, body, save, and the `except` fallback to the emergency
document (under which nothing is saved and no dispatch is launched). -/
def voice_webhook (now : String) (ev : VoiceEvent)
    (engineResult : Except String EngineRespRaw) (audioRef : Option String)
    (domain : String) (st : Store) : Store × Effects :=
  let sid := ev.callSid.getD "unknown"
  let s0 := match storeGet st sid with
    | some s => s
    | none => newSession sid (ev.fromNum.getD "unknown") (ev.toNum.getD "unknown") now
  match voiceBody now ev engineResult audioRef domain s0 with
  | .ok out =>
      (storeSet st sid out.session,
       ⟨.markup out.twiml, if out.notify then some sid else none, out.engineCalled⟩)
  | .error _ =>
      (st, ⟨.markup emergencyTwiml, none, pyTruthy ev.speech⟩)

/-- The `/webhook/recording` handler (lines 459-498): update the record if
it exists (stamping `end_time` only when unset), gate the dispatch on
`sent_to_voxintel`, save; always answer the success acknowledgement.  An
unknown `CallSid` touches nothing. -/
def handle_recording_completion (now callSid recordingUrl : String)
    (recordingSid recordingDuration : Option String) (st : Store) : Store × Effects :=
  match storeGet st callSid with
  | none => (st, ⟨.ack "success" "Recording processed", none, false⟩)
  | some s =>
      let s1 := { s with
        recording_url := some recordingUrl
        recording_sid := recordingSid
        duration_seconds := recordingDuration
        end_time := match s.end_time with | none => some now | some t => some t
        status := "completed"
        conversation_exchanges := some s.conversation.length
        final_lead_info := some s.lead_info }
      if s1.sent_to_voxintel then
        (storeSet st callSid s1, ⟨.ack "success" "Recording processed", none, false⟩)
      else
        (storeSet st callSid { s1 with sent_to_voxintel := true },
         ⟨.ack "success" "Recording processed", some callSid, false⟩)

-- ## Event traces

/-- One inbound webhook delivery, carrying the external collaborators'
behaviour for that invocation. -/
inductive Event
  | voice (now : String) (ev : VoiceEvent) (engineResult : Except String EngineRespRaw)
      (audioRef : Option String) (domain : String)
  | recording (now callSid recordingUrl : String)
      (recordingSid recordingDuration : Option String)

/-- Dispatch one event to its handler. -/
def processEvent : Event → Store → Store × Effects
  | .voice now ev engineResult audioRef domain, st =>
      voice_webhook now ev engineResult audioRef domain st
  | .recording now callSid recordingUrl recordingSid recordingDuration, st =>
      handle_recording_completion now callSid recordingUrl recordingSid recordingDuration st

/-- Process a sequence of webhook deliveries, collecting each event's
effects. -/
def runTrace : List Event → Store → Store × List Effects
  | [], st => (st, [])
  | e :: es, st =>
      let r := processEvent e st
      let r' := runTrace es r.1
      (r'.1, r.2 :: r'.2)

/-- How many events of a trace launched a VoxIntel dispatch for session
`sid`. -/
def notifyCount (sid : String) (effs : List Effects) : Nat :=
  (effs.filter fun e => e.notify = some sid).length

/-- The `sent_to_voxintel` flag of the stored record, `false` when no
record exists. -/
def notifiedFlag (st : Store) (sid : String) : Bool :=
  match storeGet st sid with
  | some s => s.sent_to_voxintel
  | none => false

/-- `end_time` of the stored record, if any. -/
def sessionEndTime (st : Store) (sid : String) : Option String :=
  match storeGet st sid with
  | some s => s.end_time
  | none => none

-- ## Notification dispatcher (`send_call_to_voxintel`, lines 17-89)

/-- Outcome of one `requests.post` to the VoxIntel endpoint: an HTTP
response with a status code, or a raised transport exception. -/
inductive AttemptOutcome
  | status (code : Nat)
  | transportError
deriving DecidableEq

/-- What one invocation of the dispatcher's retry loop did. -/
structure DispatchResult where
  /-- The boolean the function returns. -/
  success : Bool
  /-- Number of POST attempts made. -/
  attempts : Nat
  /-- Seconds slept between attempts, in order (`asyncio.sleep(2)`). -/
  sleeps : List Nat
deriving DecidableEq

/-- The `for attempt in range(3)` loop of lines 66-89, starting at attempt
index `i` with `fuel` iterations left: return success on a 200, otherwise
sleep 2 seconds unless this was the last iteration (`if attempt < 2`). -/
def sendLoop (outcome : Nat → AttemptOutcome) (i fuel : Nat) : DispatchResult :=
  match fuel with
  | 0 => ⟨false, 0, []⟩
  | f + 1 =>
      if outcome i = .status 200 then ⟨true, 1, []⟩
      else if f = 0 then ⟨false, 1, []⟩
      else
        let r := sendLoop outcome (i + 1) f
        ⟨r.success, r.attempts + 1, 2 :: r.sleeps⟩

/-- The retry behaviour of `send_call_to_voxintel`: three bounded attempts
against the given per-attempt outcomes. -/
def send_call_to_voxintel (outcome : Nat → AttemptOutcome) : DispatchResult :=
  sendLoop outcome 0 3

-- ## Duration computation inside the dispatcher (lines 34-42)

/-- Lines 34-42 of `send_call_to_voxintel`: `duration` starts at 0 and is
only computed when the conversation has at least two turns; then it is the
whole-second difference of the parsed first and last timestamps, falling
back to `len(conversation) * 30` when parsing raises.  `parse` stands for
`datetime.datetime.fromisoformat` mapped to seconds, `none` for a raise. -/
def computeDuration (parse : String → Option Int) (conv : List Turn) : Int :=
  match conv with
  | [] => 0
  | [_] => 0
  | t0 :: t1 :: rest =>
      match parse t0.timestamp, parse ((t1 :: rest).getLastD t1).timestamp with
      | some a, some b => b - a
      | _, _ => ((rest.length : Int) + 2) * 30

-- ## Concrete fixtures used by witnesses and counterexamples

/-- A session that has already captured name and phone. -/
def sessMary : CallSession :=
  { newSession "CA1001" "+15550001111" "+15550002222" "t0" with
    lead_info := [("name", some "Mary"), ("phone", some "555-123-4567")] }

/-- An engine response adding `business_type: "bakery"` while explicitly
not requesting termination. -/
def respBakery : EngineRespRaw :=
  { message := "Great, a bakery!"
    lead_info := some [("business_type", some "bakery")]
    should_end_call := some false
    next_action := some "continue" }

/-- An engine response whose delta nulls out the `name` field. -/
def respNullName : EngineRespRaw :=
  { message := "Okay!"
    lead_info := some [("name", none)]
    should_end_call := some false
    next_action := some "continue" }

/-- An engine response that itself requests termination. -/
def respEnd : EngineRespRaw :=
  { message := "Goodbye!"
    lead_info := none
    should_end_call := some true
    next_action := some "end_call" }

/-- An engine response that keeps the conversation going. -/
def respBland : EngineRespRaw :=
  { message := "Tell me more."
    lead_info := none
    should_end_call := none
    next_action := none }

/-- A first-contact voice event: new call id, no speech payload. -/
def evFirst : VoiceEvent :=
  { callSid := some "CA77", fromNum := some "+15551230000",
    toNum := some "+15559870000", speech := none, recordingUrl := none }

/-- A voice event carrying customer speech for call `sid`. -/
def evSpeak (sid txt : String) : VoiceEvent :=
  { callSid := some sid, fromNum := some "+15550003333",
    toNum := some "+15550004444", speech := some txt, recordingUrl := none }

/-- First end-deciding delivery for call `CA42`. -/
def evEnd1 : Event := .voice "t1" (evSpeak "CA42" "hi there") (.ok respEnd) none "localhost:8000"

/-- A stray second speech delivery for the already-completed `CA42`, whose
step again decides to end the call. -/
def evEnd2 : Event := .voice "t2" (evSpeak "CA42" "hello again") (.ok respEnd) none "localhost:8000"

/-- A completed, already-notified session with a stamped `end_time`. -/
def sessDone : CallSession :=
  { newSession "CA8" "+15550005555" "+15550006666" "t0" with
    end_time := some "t3", status := "completed",
    call_completed := true, sent_to_voxintel := true }

/-- A one-record store holding `sessDone`. -/
def stDone : Store := [("CA8", sessDone)]

/-- Delivery outcomes whose first two attempts fail with HTTP 500 and whose
third returns HTTP 200. -/
def retryOutcome : Nat → AttemptOutcome :=
  fun k => if k < 2 then .status 500 else .status 200

/-- A four-turn transcript whose timestamps are not ISO datetimes. -/
def fourTurns : List Turn :=
  [Turn.greeting "x0" "hello", Turn.customerInput "x1" "hi",
   Turn.aiResponse "x2" "ok" [] "continue" false, Turn.customerInput "x3" "bye"]
-- Basic lemmas about the dictionary operations.

theorem lookupField_setField_self (li : LeadInfo) (k : String) (v : Option String) :
    lookupField (setField li k v) k = some v := by
  induction li with
  | nil => simp [setField, lookupField]
  | cons p rest ih =>
      obtain ⟨k', v'⟩ := p
      by_cases h : k' = k
      · simp [setField, lookupField, h]
      · simp [setField, lookupField, h, ih]

theorem lookupField_setField_ne (li : LeadInfo) (k k' : String) (v : Option String)
    (h : k ≠ k') : lookupField (setField li k v) k' = lookupField li k' := by
  induction li with
  | nil => simp [setField, lookupField, h]
  | cons p rest ih =>
      obtain ⟨k₀, v₀⟩ := p
      by_cases h₀ : k₀ = k
      · subst h₀
        simp [setField, lookupField, h]
      · simp [setField, h₀]
        by_cases h₁ : k₀ = k'
        · simp [lookupField, h₁]
        · simp [lookupField, h₁, ih]

theorem lookupField_setField_isSome (li : LeadInfo) (k k' : String) (v : Option String)
    (h : lookupField li k' ≠ none) : lookupField (setField li k v) k' ≠ none := by
  by_cases hk : k = k'
  · subst hk
    simp [lookupField_setField_self]
  · rw [lookupField_setField_ne li k k' v hk]
    exact h

theorem lookupField_updateLead_present (li delta : LeadInfo) (k : String)
    (h : lookupField li k ≠ none) : lookupField (updateLead li delta) k ≠ none := by
  induction delta generalizing li with
  | nil => simpa [updateLead] using h
  | cons p rest ih =>
      obtain ⟨k₀, v₀⟩ := p
      simpa [updateLead] using
        ih (setField li k₀ v₀) (lookupField_setField_isSome li k₀ k v₀ h)

theorem lookupField_updateLead_not_mentioned (li delta : LeadInfo) (k : String)
    (h : ∀ p ∈ delta, p.1 ≠ k) :
    lookupField (updateLead li delta) k = lookupField li k := by
  induction delta generalizing li with
  | nil => simp [updateLead]
  | cons p rest ih =>
      obtain ⟨k₀, v₀⟩ := p
      have hk : k₀ ≠ k := h (k₀, v₀) (List.mem_cons_self _ _)
      have hrest : ∀ q ∈ rest, q.1 ≠ k := fun q hq => h q (List.mem_cons_of_mem _ hq)
      calc lookupField (updateLead li ((k₀, v₀) :: rest)) k
      _ = lookupField (updateLead (setField li k₀ v₀) rest) k := by simp [updateLead]
      _ = lookupField (setField li k₀ v₀) k := ih (setField li k₀ v₀) hrest
      _ = lookupField li k := lookupField_setField_ne li k₀ k v₀ hk


theorem storeGet_storeSet_self (st : Store) (sid : String) (s : CallSession) :
    storeGet (storeSet st sid s) sid = some s := by
  induction st with
  | nil => simp [storeGet, storeSet]
  | cons p rest ih =>
      obtain ⟨k, v⟩ := p
      by_cases h : k = sid
      · simp [storeGet, storeSet, h]
      · simp [storeGet, storeSet, h, ih]

theorem storeGet_storeSet_ne (st : Store) (sid sid' : String) (s : CallSession)
    (h : sid ≠ sid') : storeGet (storeSet st sid s) sid' = storeGet st sid' := by
  induction st with
  | nil => simp [storeGet, storeSet, h]
  | cons p rest ih =>
      obtain ⟨k, v⟩ := p
      by_cases h₀ : k = sid
      · subst h₀
        simp [storeGet, storeSet, h]
      · simp [storeSet, h₀]
        by_cases h₁ : k = sid'
        · simp [storeGet, h₁]
        · simp [storeGet, h₁, ih]


-- Further merge lemma: a field mentioned by a (duplicate-free) delta ends
-- up holding the delta's value.

theorem lookupField_updateLead_mentioned (li delta : LeadInfo) (k : String)
    (hnd : (delta.map Prod.fst).Nodup) (v : Option String)
    (hv : lookupField delta k = some v) :
    lookupField (updateLead li delta) k = some v := by
  induction delta generalizing li with
  | nil => simp [lookupField] at hv
  | cons p rest ih =>
      obtain ⟨k₀, v₀⟩ := p
      simp only [List.map_cons, List.nodup_cons] at hnd
      by_cases hk : k₀ = k
      · subst hk
        have hv' : v₀ = v := by simpa [lookupField] using hv
        have hrest : ∀ q ∈ rest, q.1 ≠ k₀ := by
          intro q hq hcontra
          exact hnd.1 (hcontra ▸ List.mem_map_of_mem Prod.fst hq)
        calc lookupField (updateLead li ((k₀, v₀) :: rest)) k₀
        _ = lookupField (updateLead (setField li k₀ v₀) rest) k₀ := by simp [updateLead]
        _ = lookupField (setField li k₀ v₀) k₀ :=
            lookupField_updateLead_not_mentioned _ _ _ hrest
        _ = some v₀ := lookupField_setField_self _ _ _
        _ = some v := by rw [hv']
      · simp only [lookupField, if_neg hk] at hv
        calc lookupField (updateLead li ((k₀, v₀) :: rest)) k
        _ = lookupField (updateLead (setField li k₀ v₀) rest) k := by simp [updateLead]
        _ = some v := ih (setField li k₀ v₀) hnd.2 hv

/-- C3 (counterexample): the claim that a non-empty `leadInfo` value is
never replaced by empty/null fails on the code: `dict.update` writes
whatever value the delta carries, so a delta `{name: null}` replaces the
stored `"Mary"` with null during a speech step. -/
theorem c3_counterexample :
    lookupField sessMary.lead_info "name" = some (some "Mary") ∧
    lookupField ((speechStep "t1" "hello" respNullName sessMary).session.lead_info) "name"
      = some none ∧
    (some (none : Option String)) ≠ some (some "Mary") := by
  refine ⟨by decide, by decide, by decide⟩

/-- C3 (amended): the merge at `call_data["lead_info"].update(...)`
(main_fixed.py line 317) is last-write-wins per field: a key already
present is never deleted by a later merge, a key not mentioned by the
delta keeps its value, and a key mentioned by the delta receives the
delta's value — even when that value is empty or null. -/
theorem c3_merge_last_write_wins : ∀ (li delta : LeadInfo) (k : String),
    (lookupField li k ≠ none → lookupField (updateLead li delta) k ≠ none) ∧
    ((∀ p ∈ delta, p.1 ≠ k) → lookupField (updateLead li delta) k = lookupField li k) ∧
    ((delta.map Prod.fst).Nodup → ∀ v, lookupField delta k = some v →
       lookupField (updateLead li delta) k = some v) := by
  intro li delta k
  exact ⟨lookupField_updateLead_present li delta k,
         lookupField_updateLead_not_mentioned li delta k,
         fun hnd v hv => lookupField_updateLead_mentioned li delta k hnd v hv⟩

/-- C3 witness: a delta touching only `phone` preserves `name` and writes
`phone`. -/
theorem c3_witness :
    lookupField (updateLead [("name", some "Mary")] [("phone", some "5551234567")]) "name"
      = some (some "Mary") ∧
    lookupField (updateLead [("name", some "Mary")] [("phone", some "5551234567")]) "phone"
      = some (some "5551234567") :=
  ⟨((c3_merge_last_write_wins [("name", some "Mary")] [("phone", some "5551234567")] "name").2.1
      (by decide)).trans (by decide),
   (c3_merge_last_write_wins [("name", some "Mary")] [("phone", some "5551234567")] "phone").2.2
      (by decide) (some "5551234567") (by decide)⟩

/-- C7 (counterexample): the fallback `30 seconds × number of turns` does
not apply to every transcript with unparsable timestamps — `duration` is
only computed when the conversation has at least two entries
(main_fixed.py line 36), so a one-turn transcript with an unparsable
timestamp yields 0, not 30. -/
theorem c7_counterexample :
    computeDuration (fun _ => none) [Turn.greeting "bad-timestamp" "hi"] = 0 ∧
    (0 : Int) ≠ 1 * 30 := by
  refine ⟨by decide, by decide⟩

/-- C7 (amended): for a transcript with fewer than two turns the duration
is 0; with at least two turns it is the whole-second difference of the
parsed first and last timestamps, and `30 × number of turns` whenever
either timestamp fails to parse. -/
theorem c7_duration_fallback : ∀ (parse : String → Option Int) (conv : List Turn),
    (conv.length < 2 → computeDuration parse conv = 0) ∧
    (∀ t0 t1 rest, conv = t0 :: t1 :: rest →
      ((parse t0.timestamp = none ∨ parse ((t1 :: rest).getLastD t1).timestamp = none →
          computeDuration parse conv = (conv.length : Int) * 30) ∧
       (∀ a b, parse t0.timestamp = some a →
          parse ((t1 :: rest).getLastD t1).timestamp = some b →
          computeDuration parse conv = b - a))) := by
  intro parse conv
  constructor
  · intro hlen
    match conv, hlen with
    | [], _ => rfl
    | [t], _ => rfl
    | t0 :: t1 :: rest, h => simp at h; omega
  · intro t0 t1 rest hconv
    subst hconv
    constructor
    · intro hfail
      rcases hfail with hf | hf
      · cases hl : parse ((t1 :: rest).getLastD t1).timestamp <;>
          · simp only [computeDuration]
            rw [hf, hl]
            simp only [List.length_cons]
            push_cast
            ring
      · cases hf0 : parse t0.timestamp <;>
          · simp only [computeDuration]
            rw [hf, hf0]
            simp only [List.length_cons]
            push_cast
            ring
    · intro a b ha hb
      simp only [computeDuration]
      rw [ha, hb]

/-- C7 witness: the spec's example — a four-turn transcript with
unparsable timestamps yields exactly 120 seconds. -/
theorem c7_witness : computeDuration (fun _ => none) fourTurns = 120 := by
  have h := ((c7_duration_fallback (fun _ => none) fourTurns).2
    (Turn.greeting "x0" "hello") (Turn.customerInput "x1" "hi")
    [Turn.aiResponse "x2" "ok" [] "continue" false, Turn.customerInput "x3" "bye"]
    (by decide)).1 (Or.inl rfl)
  simpa [fourTurns] using h

/-- C9 (counterexample): the continuing no-audio document (main_fixed.py
lines 437-444) contains exactly one gather — there is no extra
gather-with-timeout re-prompt cycle in that variant. -/
theorem c9_counterexample :
    countGathers (renderContinuing none "localhost:8000" "Hi there") = 1 ∧
    (1 : Nat) ≠ 2 := by
  refine ⟨by decide, by decide⟩

/-- C9 (amended): the continuing audio variant has exactly one extra
gather-with-timeout re-prompt cycle between the first gather and the
forced goodbye-and-hangup (two gathers in total); the continuing no-audio
variant has a single gather followed directly by the goodbye and hangup,
with no re-prompt cycle. -/
theorem c9_continuing_shape : ∀ (fn domain message : String),
    renderContinuing (some fn) domain message =
      [Verb.play (audioUrl domain fn), Verb.gather 5, Verb.say repromptMessage,
       Verb.gather 6, Verb.say goodbyeMessage, Verb.hangup] ∧
    countGathers (renderContinuing (some fn) domain message) = 2 ∧
    renderContinuing none domain message =
      [Verb.say message, Verb.gather 5, Verb.say goodbyeMessage, Verb.hangup] ∧
    countGathers (renderContinuing none domain message) = 1 := by
  intro fn domain message
  exact ⟨rfl, rfl, rfl, rfl⟩

/-- C10: a recording-completion event whose `CallSid` has no stored record
creates nothing, changes nothing, launches no notification, and still
answers the success acknowledgement. -/
theorem c10_unknown_recording : ∀ (now callSid recordingUrl : String)
    (recordingSid recordingDuration : Option String) (st : Store),
    storeGet st callSid = none →
    handle_recording_completion now callSid recordingUrl recordingSid recordingDuration st =
      (st, ⟨.ack "success" "Recording processed", none, false⟩) := by
  intro now callSid recordingUrl recordingSid recordingDuration st h
  simp [handle_recording_completion, h]

/-- C10 witness: an unknown call id against the empty store. -/
theorem c10_witness :
    handle_recording_completion "t9" "CAunknown" "https://api.twilio.com/rec.mp3" none none [] =
      ([], ⟨.ack "success" "Recording processed", none, false⟩) :=
  c10_unknown_recording "t9" "CAunknown" "https://api.twilio.com/rec.mp3" none none [] rfl

/-- C4: the dispatcher's retry loop (main_fixed.py lines 66-89) makes at
most 3 POST attempts, returns success as soon as an attempt yields
HTTP 200 (making no further attempt), sleeps a fixed 2 seconds after every
attempt except the last one made (so the sleeps are exactly
`attempts - 1` copies of 2), and after all 3 attempts fail returns false
with no further retry. -/
theorem c4_bounded_retry : ∀ outcome : Nat → AttemptOutcome,
    (send_call_to_voxintel outcome).attempts ≤ 3 ∧
    (send_call_to_voxintel outcome).sleeps =
      List.replicate ((send_call_to_voxintel outcome).attempts - 1) 2 ∧
    ((send_call_to_voxintel outcome).success = true ↔
      ∃ k, k < 3 ∧ outcome k = .status 200) ∧
    ((send_call_to_voxintel outcome).success = true →
      outcome ((send_call_to_voxintel outcome).attempts - 1) = .status 200 ∧
      ∀ j, j < (send_call_to_voxintel outcome).attempts - 1 → outcome j ≠ .status 200) ∧
    ((send_call_to_voxintel outcome).success = false →
      (send_call_to_voxintel outcome).attempts = 3) := by
  intro outcome
  by_cases h0 : outcome 0 = .status 200
  · have hval : send_call_to_voxintel outcome = ⟨true, 1, []⟩ := by
      simp [send_call_to_voxintel, sendLoop, h0]
    rw [hval]
    exact ⟨by decide, rfl, ⟨fun _ => ⟨0, by omega, h0⟩, fun _ => rfl⟩,
      fun _ => ⟨h0, fun j hj => absurd (show j < 0 from hj) (by omega)⟩,
      fun h => absurd h (by decide)⟩
  · by_cases h1 : outcome 1 = .status 200
    · have hval : send_call_to_voxintel outcome = ⟨true, 2, [2]⟩ := by
        simp [send_call_to_voxintel, sendLoop, h0, h1]
      rw [hval]
      refine ⟨by decide, rfl, ⟨fun _ => ⟨1, by omega, h1⟩, fun _ => rfl⟩,
        fun _ => ⟨h1, ?_⟩, fun h => absurd h (by decide)⟩
      intro j hj
      have hj' : j < 1 := hj
      have hj0 : j = 0 := by omega
      rw [hj0]
      exact h0
    · by_cases h2 : outcome 2 = .status 200
      · have hval : send_call_to_voxintel outcome = ⟨true, 3, [2, 2]⟩ := by
          simp [send_call_to_voxintel, sendLoop, h0, h1, h2]
        rw [hval]
        refine ⟨by decide, rfl, ⟨fun _ => ⟨2, by omega, h2⟩, fun _ => rfl⟩,
          fun _ => ⟨h2, ?_⟩, fun h => absurd h (by decide)⟩
        intro j hj
        have hj' : j < 2 := hj
        match j, hj' with
        | 0, _ => exact h0
        | 1, _ => exact h1
      · have hval : send_call_to_voxintel outcome = ⟨false, 3, [2, 2]⟩ := by
          simp [send_call_to_voxintel, sendLoop, h0, h1, h2]
        rw [hval]
        refine ⟨by decide, rfl, ⟨fun h => absurd h (by decide), ?_⟩,
          fun h => absurd h (by decide), fun _ => rfl⟩
        rintro ⟨k, hk, hkk⟩
        exfalso
        match k, hk with
        | 0, _ => exact h0 hkk
        | 1, _ => exact h1 hkk
        | 2, _ => exact h2 hkk

/-- C4 witness: first two attempts return HTTP 500, the third HTTP 200 —
the dispatcher reports success after exactly three attempts, having slept
twice. -/
theorem c4_witness :
    (send_call_to_voxintel retryOutcome).success = true ∧
    (send_call_to_voxintel retryOutcome).attempts = 3 ∧
    (send_call_to_voxintel retryOutcome).sleeps = [2, 2] :=
  ⟨((c4_bounded_retry retryOutcome).2.2.1).mpr ⟨2, by omega, by decide⟩,
   by decide, by decide⟩

-- Helper facts: the synthesized closing always contains the two values
-- interpolated into it.

theorem closingMessage_contains_name (n b : String) :
    ∃ l r : List Char, (closingMessage n b).data = l ++ n.data ++ r := by
  refine ⟨("Perfect! I have your information, " : String).data,
    ((". Our promotional products specialist will contact you within 24 hours with customized options for your " : String) ++ b ++ ". Thank you for choosing TriCreativeGroup!").data, ?_⟩
  simp [closingMessage, String.data_append]

theorem closingMessage_contains_businessType (n b : String) :
    ∃ l r : List Char, (closingMessage n b).data = l ++ b.data ++ r := by
  refine ⟨(("Perfect! I have your information, " : String) ++ n ++
    ". Our promotional products specialist will contact you within 24 hours with customized options for your ").data,
    (". Thank you for choosing TriCreativeGroup!" : String).data, ?_⟩
  simp [closingMessage, String.data_append]

/-- C1: when the merged lead info contains both `name` and `phone` and at
least one of `business_type`/`product_category`, and the engine returned
`should_end_call = false`, the speech step discards the engine's reply,
answers with the fixed closing (which contains the captured name and
business-type value), and appends a system turn carrying
`should_end_call = true` and `next_action = "end_call"`, completing the
session. -/
theorem c1_termination_override : ∀ (now sp : String) (resp : EngineRespRaw) (s : CallSession),
    resp.should_end_call.getD false = false →
    hasContact (updateLead s.lead_info (resp.lead_info.getD [])) = true →
    hasProject (updateLead s.lead_info (resp.lead_info.getD [])) = true →
    (speechStep now sp resp s).message =
      closingMessage
        (pyGetStr (updateLead s.lead_info (resp.lead_info.getD [])) "name" "there")
        (pyGetStr (updateLead s.lead_info (resp.lead_info.getD [])) "business_type" "organization") ∧
    (∃ l r : List Char, ((speechStep now sp resp s).message).data =
      l ++ (pyGetStr (updateLead s.lead_info (resp.lead_info.getD [])) "name" "there").data ++ r) ∧
    (∃ l r : List Char, ((speechStep now sp resp s).message).data =
      l ++ (pyGetStr (updateLead s.lead_info (resp.lead_info.getD [])) "business_type" "organization").data ++ r) ∧
    (speechStep now sp resp s).session.conversation =
      s.conversation ++ [Turn.customerInput now sp,
        Turn.aiResponse now ((speechStep now sp resp s).message) (resp.lead_info.getD [])
          "end_call" true] ∧
    (speechStep now sp resp s).session.call_completed = true ∧
    (speechStep now sp resp s).session.status = "completed" := by
  intro now sp resp s hsec hc hp
  have hdec : overrideDecision resp (updateLead s.lead_info (resp.lead_info.getD [])) =
      (closingMessage
        (pyGetStr (updateLead s.lead_info (resp.lead_info.getD [])) "name" "there")
        (pyGetStr (updateLead s.lead_info (resp.lead_info.getD [])) "business_type" "organization"),
       true, "end_call") := by
    simp [overrideDecision, hsec, hc, hp]
  by_cases hsent : s.sent_to_voxintel = true <;>
    · have hmsg : (speechStep now sp resp s).message =
          closingMessage
            (pyGetStr (updateLead s.lead_info (resp.lead_info.getD [])) "name" "there")
            (pyGetStr (updateLead s.lead_info (resp.lead_info.getD [])) "business_type" "organization") := by
        simp [speechStep, hdec, hsent]
      refine ⟨hmsg, hmsg ▸ closingMessage_contains_name _ _,
        hmsg ▸ closingMessage_contains_businessType _ _, ?_, ?_, ?_⟩
      · rw [hmsg]
        simp [speechStep, hdec, hsent]
      · simp [speechStep, hdec, hsent]
      · simp [speechStep, hdec, hsent]

/-- C1 witness: the spec's scenario — `leadInfo = {name: Mary, phone:
555-123-4567}`, a delta adding `business_type: bakery`, engine returning
`should_end_call = false` — yields the closing naming Mary and bakery, a
system turn forcing the end, and a completed session. -/
theorem c1_witness :
    (speechStep "t1" "I run a bakery" respBakery sessMary).message =
      closingMessage "Mary" "bakery" ∧
    (speechStep "t1" "I run a bakery" respBakery sessMary).session.call_completed = true ∧
    (∃ l r : List Char, ((speechStep "t1" "I run a bakery" respBakery sessMary).message).data =
      l ++ "Mary".data ++ r) := by
  have h := c1_termination_override "t1" "I run a bakery" respBakery sessMary
    (by decide) (by decide) (by decide)
  have hn : pyGetStr (updateLead sessMary.lead_info (respBakery.lead_info.getD []))
      "name" "there" = "Mary" := by decide
  have hb : pyGetStr (updateLead sessMary.lead_info (respBakery.lead_info.getD []))
      "business_type" "organization" = "bakery" := by decide
  refine ⟨?_, h.2.2.2.2.1, ?_⟩
  · rw [h.1, hn, hb]
  · have := h.2.1
    rwa [hn] at this

/-- C6: a voice event with no speech payload on a new call id appends
exactly one fixed greeting turn, never invokes the dialogue engine (the
handler's result does not even depend on the engine outcome), leaves the
session in progress, and answers the continuing, gather-based document. -/
theorem c6_first_contact : ∀ (now : String) (ev : VoiceEvent)
    (engineResult : Except String EngineRespRaw) (audioRef : Option String)
    (domain : String) (st : Store),
    ev.speech = none →
    storeGet st (ev.callSid.getD "unknown") = none →
    (∃ s', storeGet (voice_webhook now ev engineResult audioRef domain st).1
        (ev.callSid.getD "unknown") = some s' ∧
      s'.conversation = [Turn.greeting now greetingMessage] ∧
      s'.status = "in_progress" ∧ s'.call_completed = false) ∧
    (voice_webhook now ev engineResult audioRef domain st).2.engineCalled = false ∧
    (voice_webhook now ev engineResult audioRef domain st).2.notify = none ∧
    (voice_webhook now ev engineResult audioRef domain st).2.response =
      .markup (renderContinuing audioRef domain greetingMessage) ∧
    1 ≤ countGathers (renderContinuing audioRef domain greetingMessage) ∧
    (∀ r', voice_webhook now ev r' audioRef domain st =
      voice_webhook now ev engineResult audioRef domain st) := by
  intro now ev r audioRef domain st hsp hget
  have htr : pyTruthy ev.speech = false := by rw [hsp]; rfl
  refine ⟨?_, ?_, ?_, ?_, ?_, ?_⟩
  · by_cases hrec : pyTruthy ev.recordingUrl <;>
      simp [voice_webhook, voiceBody, htr, hget, hrec, greetStep, finalizeSession,
        newSession, storeGet_storeSet_self]
  · by_cases hrec : pyTruthy ev.recordingUrl <;>
      simp [voice_webhook, voiceBody, htr, hget, hrec]
  · by_cases hrec : pyTruthy ev.recordingUrl <;>
      simp [voice_webhook, voiceBody, htr, hget, hrec]
  · by_cases hrec : pyTruthy ev.recordingUrl <;>
      simp [voice_webhook, voiceBody, htr, hget, hrec, greetStep, finalizeSession, newSession]
  · cases audioRef <;> simp [renderContinuing, countGathers]
  · intro r'
    by_cases hrec : pyTruthy ev.recordingUrl <;>
      simp [voice_webhook, voiceBody, htr, hget, hrec]

/-- C6 witness: the first delivery for call `CA77` with no speech payload
against the empty store. -/
theorem c6_witness :
    (voice_webhook "t1" evFirst (.ok respBland) none "localhost:8000" []).2.response =
      .markup (renderContinuing none "localhost:8000" greetingMessage) ∧
    (voice_webhook "t1" evFirst (.ok respBland) none "localhost:8000" []).2.engineCalled
      = false := by
  have h := c6_first_contact "t1" evFirst (.ok respBland) none "localhost:8000" [] rfl rfl
  exact ⟨h.2.2.2.1, h.2.1⟩

-- Helper facts for the webhook's response shapes.

theorem renderCompleted_ne_nil (audioRef : Option String) (domain message : String) :
    renderCompleted audioRef domain message ≠ [] := by
  cases audioRef <;> simp [renderCompleted]

theorem renderContinuing_ne_nil (audioRef : Option String) (domain message : String) :
    renderContinuing audioRef domain message ≠ [] := by
  cases audioRef <;> simp [renderContinuing]

theorem voiceBody_twiml_shape (now : String) (ev : VoiceEvent)
    (r : Except String EngineRespRaw) (audioRef : Option String) (domain : String)
    (s0 : CallSession) (out : VoiceOut)
    (h : voiceBody now ev r audioRef domain s0 = .ok out) :
    out.twiml = renderCompleted audioRef domain out.message ∨
    out.twiml = renderContinuing audioRef domain out.message := by
  by_cases hsp : pyTruthy ev.speech
  · cases r with
    | error e => simp [voiceBody, hsp] at h
    | ok resp =>
        simp only [voiceBody, hsp, if_true] at h
        rw [Except.ok.injEq] at h
        subst h
        exact ite_eq_or_eq _ _ _
  · simp only [voiceBody, hsp, Bool.false_eq_true, if_false] at h
    rw [Except.ok.injEq] at h
    subst h
    exact ite_eq_or_eq _ _ _

/-- C8: the voice webhook always answers a (non-empty, structurally valid)
markup document: missing `From`/`To` fields are defaulted to the sentinel
`"unknown"` in the created record, and an engine failure yields the fixed
last-resort document while saving nothing, instead of propagating. -/
theorem c8_always_markup :
    (∀ (now : String) (ev : VoiceEvent) (r : Except String EngineRespRaw)
       (audioRef : Option String) (domain : String) (st : Store),
       ∃ m, (voice_webhook now ev r audioRef domain st).2.response = .markup m ∧ m ≠ []) ∧
    (∀ (now : String) (ev : VoiceEvent) (e : String) (audioRef : Option String)
       (domain : String) (st : Store), pyTruthy ev.speech = true →
       (voice_webhook now ev (.error e) audioRef domain st).2.response =
         .markup emergencyTwiml ∧
       (voice_webhook now ev (.error e) audioRef domain st).1 = st) ∧
    (∀ (now : String) (callSid : Option String) (r : Except String EngineRespRaw)
       (audioRef : Option String) (domain : String) (st : Store),
       storeGet st (callSid.getD "unknown") = none →
       ∃ s', storeGet
           (voice_webhook now ⟨callSid, none, none, none, none⟩ r audioRef domain st).1
           (callSid.getD "unknown") = some s' ∧
         s'.from_number = "unknown" ∧ s'.to_number = "unknown") := by
  refine ⟨?_, ?_, ?_⟩
  · intro now ev r audioRef domain st
    simp only [voice_webhook]
    split
    · rename_i out heq
      refine ⟨out.twiml, rfl, ?_⟩
      rcases voiceBody_twiml_shape now ev r audioRef domain _ out heq with h | h <;> rw [h]
      · exact renderCompleted_ne_nil _ _ _
      · exact renderContinuing_ne_nil _ _ _
    · exact ⟨emergencyTwiml, rfl, by simp [emergencyTwiml]⟩
  · intro now ev e audioRef domain st hsp
    constructor <;> simp [voice_webhook, voiceBody, hsp]
  · intro now callSid r audioRef domain st hget
    simp [voice_webhook, voiceBody, pyTruthy, hget, greetStep, finalizeSession,
      newSession, storeGet_storeSet_self]

/-- C8 witness: an engine exception on a speech event answers the fixed
emergency document. -/
theorem c8_witness :
    (voice_webhook "t1" ⟨some "CA5", none, none, some "hello", none⟩ (.error "boom")
      none "localhost:8000" []).2.response = .markup emergencyTwiml :=
  (c8_always_markup.2.1 "t1" ⟨some "CA5", none, none, some "hello", none⟩ "boom"
    none "localhost:8000" [] (by decide)).1

/-- C5 (counterexample): `end_time` is not stable once set — the voice
handler stamps it unconditionally (main_fixed.py line 355), so a stray
post-completion speech event whose step again decides to end the call
overwrites the earlier value. -/
theorem c5_counterexample :
    sessionEndTime (runTrace [evEnd1] []).1 "CA42" = some "t1" ∧
    sessionEndTime (runTrace [evEnd1, evEnd2] []).1 "CA42" = some "t2" ∧
    ("t1" : String) ≠ "t2" := by
  refine ⟨by decide, by decide, by decide⟩

/-- C5 (amended): a fresh record has no `end_time`; a greeting step never
touches it; a speech step assigns `end_time := now` exactly when it
decides to end the call (even when an earlier value exists, which is how a
post-completion re-ending event moves it) and leaves it unchanged
otherwise; the recording-completion path stamps `end_time` only when it is
unset and never overwrites an existing value. -/
theorem c5_endtime_discipline :
    (∀ callSid fromNumber toNumber now,
       (newSession callSid fromNumber toNumber now).end_time = none) ∧
    (∀ now s, ((greetStep now s).1).end_time = s.end_time) ∧
    (∀ now sp resp s,
       (speechStep now sp resp s).session.end_time =
         (if stepEndsCall resp (updateLead s.lead_info (resp.lead_info.getD []))
          then some now else s.end_time)) ∧
    (∀ now callSid url rsid rdur st s, storeGet st callSid = some s → s.end_time ≠ none →
       sessionEndTime (handle_recording_completion now callSid url rsid rdur st).1 callSid
         = s.end_time) ∧
    (∀ now callSid url rsid rdur st s, storeGet st callSid = some s → s.end_time = none →
       sessionEndTime (handle_recording_completion now callSid url rsid rdur st).1 callSid
         = some now) := by
  refine ⟨fun _ _ _ _ => rfl, fun _ _ => rfl, ?_, ?_, ?_⟩
  · intro now sp resp s
    simp only [speechStep, stepEndsCall]
    split
    · split <;> rfl
    · rfl
  · intro now callSid url rsid rdur st s hget hne
    rcases ht : s.end_time with _ | t
    · exact absurd ht hne
    · by_cases hsent : s.sent_to_voxintel = true <;>
        simp [handle_recording_completion, hget, ht, hsent, sessionEndTime,
          storeGet_storeSet_self]
  · intro now callSid url rsid rdur st s hget hnone
    by_cases hsent : s.sent_to_voxintel = true <;>
      simp [handle_recording_completion, hget, hnone, hsent, sessionEndTime,
        storeGet_storeSet_self]

/-- C5 witness: a recording-completion event for an already-stamped
session leaves `end_time` untouched. -/
theorem c5_witness :
    sessionEndTime
      (handle_recording_completion "t9" "CA8" "https://api.twilio.com/r.mp3" none none
        stDone).1 "CA8" = some "t3" := by
  have h := c5_endtime_discipline.2.2.2.1 "t9" "CA8" "https://api.twilio.com/r.mp3"
    none none stDone sessDone (by decide) (by decide)
  exact h.trans rfl

-- Sent-flag discipline, layer by layer.

theorem speechStep_sent (now sp : String) (resp : EngineRespRaw) (s : CallSession) :
    (speechStep now sp resp s).session.sent_to_voxintel =
      (s.sent_to_voxintel || (speechStep now sp resp s).notify) ∧
    ((speechStep now sp resp s).notify = true → s.sent_to_voxintel = false) := by
  simp only [speechStep]
  split
  · split
    · rename_i hsent
      refine ⟨by simp, fun h => nomatch h⟩
    · rename_i hsent
      refine ⟨by simp, fun _ => ?_⟩
      cases hb : s.sent_to_voxintel with
      | false => rfl
      | true => exact absurd hb hsent
  · exact ⟨by simp, fun h => nomatch h⟩

theorem voiceBody_sent (now : String) (ev : VoiceEvent)
    (r : Except String EngineRespRaw) (audioRef : Option String) (domain : String)
    (s0 : CallSession) (out : VoiceOut)
    (h : voiceBody now ev r audioRef domain s0 = .ok out) :
    out.session.sent_to_voxintel = (s0.sent_to_voxintel || out.notify) ∧
    (out.notify = true → s0.sent_to_voxintel = false) := by
  by_cases hsp : pyTruthy ev.speech
  · cases r with
    | error e => simp [voiceBody, hsp] at h
    | ok resp =>
        simp only [voiceBody, hsp, if_true] at h
        rw [Except.ok.injEq] at h
        subst h
        constructor
        · refine ((speechStep_sent now (ev.speech.getD "") resp _).1).trans ?_
          by_cases hrec : pyTruthy ev.recordingUrl <;> simp [hrec]
        · intro hn
          have hz := (speechStep_sent now (ev.speech.getD "") resp _).2 hn
          by_cases hrec : pyTruthy ev.recordingUrl <;> simp [hrec] at hz <;> exact hz
  · simp only [voiceBody, hsp, Bool.false_eq_true, if_false] at h
    rw [Except.ok.injEq] at h
    subst h
    refine ⟨?_, fun hn => nomatch hn⟩
    by_cases hrec : pyTruthy ev.recordingUrl <;>
      simp [greetStep, finalizeSession, hrec]

theorem voice_webhook_guard (now : String) (ev : VoiceEvent)
    (r : Except String EngineRespRaw) (audioRef : Option String) (domain : String)
    (st : Store) (sid : String) :
    (notifiedFlag st sid = true →
       (voice_webhook now ev r audioRef domain st).2.notify ≠ some sid ∧
       notifiedFlag (voice_webhook now ev r audioRef domain st).1 sid = true) ∧
    ((voice_webhook now ev r audioRef domain st).2.notify = some sid →
       notifiedFlag (voice_webhook now ev r audioRef domain st).1 sid = true) := by
  rcases hg : storeGet st (ev.callSid.getD "unknown") with _ | s
  · rcases hv : voiceBody now ev r audioRef domain
        (newSession (ev.callSid.getD "unknown") (ev.fromNum.getD "unknown")
          (ev.toNum.getD "unknown") now) with e | out
    · have hw : voice_webhook now ev r audioRef domain st =
          (st, ⟨.markup emergencyTwiml, none, pyTruthy ev.speech⟩) := by
        simp [voice_webhook, hg, hv]
      rw [hw]
      exact ⟨fun hf => ⟨by simp, hf⟩, fun h => nomatch h⟩
    · have hw : voice_webhook now ev r audioRef domain st =
          (storeSet st (ev.callSid.getD "unknown") out.session,
           ⟨.markup out.twiml,
            if out.notify then some (ev.callSid.getD "unknown") else none,
            out.engineCalled⟩) := by
        simp [voice_webhook, hg, hv]
      rw [hw]
      have hsent := voiceBody_sent now ev r audioRef domain _ out hv
      constructor
      · intro hf
        by_cases hsid : (ev.callSid.getD "unknown") = sid
        · rw [hsid] at hg
          simp [notifiedFlag, hg] at hf
        · refine ⟨?_, ?_⟩
          · cases hn : out.notify <;> simp [hn, hsid]
          · simpa [notifiedFlag, storeGet_storeSet_ne st _ sid _ hsid] using hf
      · intro hn
        cases hno : out.notify with
        | false => rw [hno] at hn; simp at hn
        | true =>
            rw [hno] at hn
            simp only [if_true] at hn
            rw [Option.some.injEq] at hn
            rw [← hn]
            simp only [notifiedFlag, storeGet_storeSet_self]
            rw [hsent.1, hno]
            simp [newSession]
  · rcases hv : voiceBody now ev r audioRef domain s with e | out
    · have hw : voice_webhook now ev r audioRef domain st =
          (st, ⟨.markup emergencyTwiml, none, pyTruthy ev.speech⟩) := by
        simp [voice_webhook, hg, hv]
      rw [hw]
      exact ⟨fun hf => ⟨by simp, hf⟩, fun h => nomatch h⟩
    · have hw : voice_webhook now ev r audioRef domain st =
          (storeSet st (ev.callSid.getD "unknown") out.session,
           ⟨.markup out.twiml,
            if out.notify then some (ev.callSid.getD "unknown") else none,
            out.engineCalled⟩) := by
        simp [voice_webhook, hg, hv]
      rw [hw]
      have hsent := voiceBody_sent now ev r audioRef domain _ out hv
      constructor
      · intro hf
        by_cases hsid : (ev.callSid.getD "unknown") = sid
        · have hs : s.sent_to_voxintel = true := by
            rw [hsid] at hg
            simpa [notifiedFlag, hg] using hf
          have hnot : out.notify = false := by
            cases hno : out.notify with
            | false => rfl
            | true => exact absurd hs (by simp [hsent.2 hno])
          refine ⟨by simp [hnot], ?_⟩
          rw [← hsid]
          simp only [notifiedFlag, storeGet_storeSet_self]
          rw [hsent.1, hnot, hs]
          rfl
        · refine ⟨?_, ?_⟩
          · cases hn : out.notify <;> simp [hn, hsid]
          · simpa [notifiedFlag, storeGet_storeSet_ne st _ sid _ hsid] using hf
      · intro hn
        cases hno : out.notify with
        | false => rw [hno] at hn; simp at hn
        | true =>
            rw [hno] at hn
            simp only [if_true] at hn
            rw [Option.some.injEq] at hn
            rw [← hn]
            simp only [notifiedFlag, storeGet_storeSet_self]
            rw [hsent.1, hno]
            simp

theorem recording_guard (now callSid url : String) (rsid rdur : Option String)
    (st : Store) (sid : String) :
    (notifiedFlag st sid = true →
       (handle_recording_completion now callSid url rsid rdur st).2.notify ≠ some sid ∧
       notifiedFlag (handle_recording_completion now callSid url rsid rdur st).1 sid = true) ∧
    ((handle_recording_completion now callSid url rsid rdur st).2.notify = some sid →
       notifiedFlag (handle_recording_completion now callSid url rsid rdur st).1 sid = true) := by
  rcases hg : storeGet st callSid with _ | s
  · have hw : handle_recording_completion now callSid url rsid rdur st =
        (st, ⟨.ack "success" "Recording processed", none, false⟩) := by
      simp [handle_recording_completion, hg]
    rw [hw]
    exact ⟨fun hf => ⟨by simp, hf⟩, fun h => nomatch h⟩
  · by_cases hsent : s.sent_to_voxintel = true
    · have hw : (handle_recording_completion now callSid url rsid rdur st).2.notify = none ∧
          ∃ s1, (handle_recording_completion now callSid url rsid rdur st).1 =
            storeSet st callSid s1 ∧ s1.sent_to_voxintel = true := by
        refine ⟨by simp [handle_recording_completion, hg, hsent],
          ⟨{ s with
              recording_url := some url
              recording_sid := rsid
              duration_seconds := rdur
              end_time := match s.end_time with | none => some now | some t => some t
              status := "completed"
              conversation_exchanges := some s.conversation.length
              final_lead_info := some s.lead_info }, ?_, ?_⟩⟩
        · simp [handle_recording_completion, hg, hsent]
        · exact hsent
      obtain ⟨hnone, s1, hst, hs1⟩ := hw
      constructor
      · intro hf
        refine ⟨by simp [hnone], ?_⟩
        rw [hst]
        by_cases hsid : callSid = sid
        · rw [← hsid]
          simp [notifiedFlag, storeGet_storeSet_self, hs1]
        · simpa [notifiedFlag, storeGet_storeSet_ne st _ sid _ hsid] using hf
      · intro hn
        rw [hnone] at hn
        exact absurd hn (by simp)
    · have hw : handle_recording_completion now callSid url rsid rdur st =
          (storeSet st callSid
            { s with
              recording_url := some url
              recording_sid := rsid
              duration_seconds := rdur
              end_time := match s.end_time with | none => some now | some t => some t
              status := "completed"
              conversation_exchanges := some s.conversation.length
              final_lead_info := some s.lead_info
              sent_to_voxintel := true },
           ⟨.ack "success" "Recording processed", some callSid, false⟩) := by
        simp [handle_recording_completion, hg, hsent]
      rw [hw]
      constructor
      · intro hf
        by_cases hsid : callSid = sid
        · rw [hsid] at hg
          have hs : s.sent_to_voxintel = true := by simpa [notifiedFlag, hg] using hf
          exact absurd hs hsent
        · refine ⟨by simp [hsid], ?_⟩
          simpa [notifiedFlag, storeGet_storeSet_ne st _ sid _ hsid] using hf
      · intro hn
        rw [Option.some.injEq] at hn
        rw [← hn]
        simp [notifiedFlag, storeGet_storeSet_self]

theorem processEvent_guard (e : Event) (st : Store) (sid : String) :
    (notifiedFlag st sid = true →
       (processEvent e st).2.notify ≠ some sid ∧
       notifiedFlag (processEvent e st).1 sid = true) ∧
    ((processEvent e st).2.notify = some sid →
       notifiedFlag (processEvent e st).1 sid = true) := by
  cases e with
  | voice now ev r audioRef domain => exact voice_webhook_guard now ev r audioRef domain st sid
  | recording now callSid url rsid rdur => exact recording_guard now callSid url rsid rdur st sid

theorem notifyCount_cons (sid : String) (eff : Effects) (effs : List Effects) :
    notifyCount sid (eff :: effs) =
      (if eff.notify = some sid then 1 else 0) + notifyCount sid effs := by
  by_cases h : eff.notify = some sid <;> simp [notifyCount, h, Nat.add_comm]

theorem notifyCount_le_aux : ∀ (es : List Event) (st : Store) (sid : String),
    notifyCount sid (runTrace es st).2 ≤ (if notifiedFlag st sid then 0 else 1) := by
  intro es
  induction es with
  | nil =>
      intro st sid
      have : notifyCount sid (runTrace [] st).2 = 0 := by simp [runTrace, notifyCount]
      rw [this]
      omega
  | cons e es ih =>
      intro st sid
      have hexp : (runTrace (e :: es) st).2 =
          (processEvent e st).2 :: (runTrace es (processEvent e st).1).2 := rfl
      rw [hexp, notifyCount_cons]
      have hguard := processEvent_guard e st sid
      have hrec := ih (processEvent e st).1 sid
      by_cases hflag : notifiedFlag st sid = true
      · rw [if_pos hflag]
        obtain ⟨hno, hafter⟩ := hguard.1 hflag
        rw [if_neg hno, if_pos hafter] at *
        omega
      · rw [if_neg hflag]
        by_cases hn : (processEvent e st).2.notify = some sid
        · have hafter := hguard.2 hn
          rw [if_pos hn]
          rw [if_pos hafter] at hrec
          omega
        · rw [if_neg hn]
          by_cases h2 : notifiedFlag (processEvent e st).1 sid = true
          · rw [if_pos h2] at hrec
            omega
          · rw [if_neg h2] at hrec
            omega

/-- C2: at-most-once notification.  (i) Processing any webhook event
against a session whose `sent_to_voxintel` flag is already true launches
no dispatch for that session and keeps the flag true; (ii) whenever an
event's processing launches a dispatch for a session, the session record
it persists already has the flag set (the check-and-set precedes the
delivery attempt); (iii) over any sequence of webhook deliveries starting
from a not-yet-notified session, at most one event launches a dispatch
for it. -/
theorem c2_at_most_once_notification :
    (∀ (e : Event) (st : Store) (sid : String), notifiedFlag st sid = true →
       (processEvent e st).2.notify ≠ some sid ∧
       notifiedFlag (processEvent e st).1 sid = true) ∧
    (∀ (e : Event) (st : Store) (sid : String),
       (processEvent e st).2.notify = some sid →
       notifiedFlag (processEvent e st).1 sid = true) ∧
    (∀ (es : List Event) (st : Store) (sid : String), notifiedFlag st sid = false →
       notifyCount sid (runTrace es st).2 ≤ 1) := by
  refine ⟨fun e st sid hf => (processEvent_guard e st sid).1 hf,
    fun e st sid hn => (processEvent_guard e st sid).2 hn, ?_⟩
  intro es st sid hflag
  have h := notifyCount_le_aux es st sid
  rw [if_neg (by simp [hflag])] at h
  exact h

/-- C2 witness: two consecutive end-deciding deliveries for call `CA42`
launch exactly one dispatch, within the proved bound. -/
theorem c2_witness :
    notifyCount "CA42" (runTrace [evEnd1, evEnd2] []).2 ≤ 1 ∧
    notifyCount "CA42" (runTrace [evEnd1, evEnd2] []).2 = 1 :=
  ⟨c2_at_most_once_notification.2.2 [evEnd1, evEnd2] [] "CA42" rfl, by decide⟩
